import Mathlib

/-!
Shallow embedding of the `agent_adapter` package
(`src/agent_adapter/meta.py`, `src/agent_adapter/adapters.py`).

Python dictionaries are modelled as insertion-ordered association lists
`List (String × α)`; `dict.pop`, `dict.update` and key lookup are embedded
as `dictPop`, `dictUpdate` and `findVal`.  Python runtime values appearing in
`**kwargs` are modelled by `PyVal` together with Python truthiness.  Python
`type` objects are modelled by `PyType`, carrying `__name__` and `repr`.
Dynamically created classes (`pydantic.create_model`) have object identity;
this is embedded by threading an allocation counter and stamping each created
model with a fresh id.  The iteration order of a Python `set` of strings is
not determined by the source (string hashing is randomized per process), so
the set built in string mode is embedded as a `Finset String` together with
an arbitrary enumeration function `enum` supplied as a parameter.
-/

/-- Model of a Python `type` object: its `__name__` and its `repr(...)`. -/
structure PyType where
  name : String
  reprStr : String
deriving DecidableEq

/-- The Python builtin `str` type: `repr(str)` is `<class 'str'>`. -/
def pyStr : PyType := { name := "str", reprStr := "<class 'str'>" }

/-- The Python builtin `int` type: `repr(int)` is `<class 'int'>`. -/
def pyInt : PyType := { name := "int", reprStr := "<class 'int'>" }

/-- Python `s.startswith(p)`, as a structural recursion over the characters. -/
def strStartsWith (s p : String) : Bool :=
  p.data.isPrefixOf s.data

/-- `make_repr` from `adapters.py`: `repr(cls)` if it does not start with
`<class`, else `cls.__name__`. -/
def make_repr (cls : PyType) : String :=
  if strStartsWith cls.reprStr "<class" then cls.name else cls.reprStr

/-- Model of a Python runtime value passed through `**kwargs`. -/
inductive PyVal where
  | none
  | bool (b : Bool)
  | str (s : String)
  | int (n : Int)
deriving DecidableEq

/-- Python truthiness for `PyVal` (`if not x` tests). -/
def PyVal.truthy : PyVal → Bool
  | .none => false
  | .bool b => b
  | .str s => s ≠ ""
  | .int n => n ≠ 0

/-- An `output_schema` argument: a Python dict from field name to type,
modelled as an insertion-ordered association list. -/
abbrev Schema := List (String × PyType)

/-- A `**kwargs` dict, modelled as an insertion-ordered association list. -/
abbrev Kwargs := List (String × PyVal)

/-- Lookup of a key in a Python dict (association list): first binding wins. -/
def findVal {α : Type} : List (String × α) → String → Option α
  | [], _ => Option.none
  | p :: t, k => if p.1 = k then some p.2 else findVal t k

/-- Removal of a key from a Python dict (association list). -/
def eraseK {α : Type} : List (String × α) → String → List (String × α)
  | [], _ => []
  | p :: t, k => if p.1 = k then eraseK t k else p :: eraseK t k

/-- `d.pop(k, dflt)`: returns the popped value (or the default) together with
the dict with `k` removed. -/
def dictPop {α : Type} (d : List (String × α)) (k : String) (dflt : α) :
    α × List (String × α) :=
  ((findVal d k).getD dflt, eraseK d k)

/-- `d.update({k: v})`: replaces the value in place if `k` is present
(keeping its position), else appends the new binding. -/
def dictUpdate {α : Type} (d : List (String × α)) (k : String) (v : α) :
    List (String × α) :=
  if (findVal d k).isSome then
    d.map (fun p => if p.1 = k then (k, v) else p)
  else d ++ [(k, v)]

/-- A field declared on a dynamically created model/signature: name, declared
type, whether it is an input field (dspy `InputField`) and whether it is
required / carries a default.  `(type_, ...)` and `(type_, OutputField())`
and `(str, InputField())` all declare required fields with no default. -/
structure FieldSpec where
  fname : String
  ftype : PyType
  isInput : Bool
  required : Bool
  hasDefault : Bool
deriving DecidableEq

/-- Lookup of a field by name on a created model/signature
(attribute access / `model_fields` access). -/
def lookupField : List FieldSpec → String → Option FieldSpec
  | [], _ => Option.none
  | f :: t, k => if f.fname = k then some f else lookupField t k

/-- The class object returned by `create_model("_OutputModel", ...)` in
`PydanticAdapter.type_builder`: a fresh class (identity stamped by
`modelId`), its name, and its declared fields in dict order. -/
structure PydModel where
  modelId : Nat
  mname : String
  fields : List FieldSpec
deriving DecidableEq

/-- The class object returned by `create_model("_OutputSignature", ...)` in
`DSPyAdapter.type_builder` (structured mode). -/
structure TypedSig where
  sigId : Nat
  sname : String
  fields : List FieldSpec
deriving DecidableEq

/-- The result of `DSPyAdapter.type_builder`: a signature class in structured
mode, or a literal signature string in string mode. -/
inductive DSPySig where
  | typed (ts : TypedSig)
  | strSig (s : String)
deriving DecidableEq

/-- The declared fields of a `type_builder` result (empty for a string). -/
def DSPySig.typedFields : DSPySig → List FieldSpec
  | .typed ts => ts.fields
  | .strSig _ => []

/-- The class identity of a `type_builder` result (none for a string). -/
def DSPySig.typedId : DSPySig → Option Nat
  | .typed ts => some ts.sigId
  | .strSig _ => Option.none

/-- `PydanticAdapter.type_builder` (`adapters.py` lines 20-32):
`field_definitions = {field: (type_, ...) for field, type_ in output_schema.items()}`
then `create_model("_OutputModel", __base__=BaseModel, **field_definitions)`.
`...` (Ellipsis) declares each field required with no default.  The counter
`c` threads class-object allocation. -/
def PydanticAdapter.type_builder (output_schema : Schema) (c : Nat) :
    PydModel × Nat :=
  let field_definitions : List FieldSpec :=
    output_schema.map (fun p => FieldSpec.mk p.1 p.2 false true false)
  (PydModel.mk c "_OutputModel" field_definitions, c + 1)

/-- `DSPyAdapter.type_builder` (`adapters.py` lines 63-88).
Builds `field_definitions = {field: (type_, OutputField()) for ...}`, then
`field_definitions.update({"user_prompt": (str, InputField())})` (replacing a
schema field named `user_prompt` if present), then branches on
`kwargs.pop("string", False)`: structured mode calls
`create_model("_OutputSignature", __base__=dspy.Signature, **field_definitions)`;
string mode builds the set `{f"{field}: {make_repr(type_)}" ...}` and returns
`f"user_prompt: str -> {', '.join(...)}"`.  `enum` supplies the (per-process
arbitrary) iteration order of the Python set. -/
def DSPyAdapter.type_builder (enum : Finset String → List String)
    (output_schema : Schema) (kwargs : Kwargs) (c : Nat) : DSPySig × Nat :=
  let field_definitions : List (String × (PyType × Bool)) :=
    output_schema.map (fun p => (p.1, (p.2, false)))
  let fd := dictUpdate field_definitions "user_prompt" (pyStr, true)
  let pop := dictPop kwargs "string" (PyVal.bool false)
  if PyVal.truthy pop.1 = false then
    (DSPySig.typed
      (TypedSig.mk c "_OutputSignature"
        (fd.map (fun q => FieldSpec.mk q.1 q.2.1 q.2.2 true false))),
      c + 1)
  else
    let fragments : Finset String :=
      (output_schema.map (fun p => p.1 ++ ": " ++ make_repr p.2)).toFinset
    (DSPySig.strSig ("user_prompt: str -> " ++
        String.intercalate ", " (enum fragments)), c)

/-- Observable behaviour of one `DSPyAdapter.produce` call: which mode ran,
the signature built by `type_builder`, whether and with what argument
`sig.with_instructions` was invoked, the instructions attached to the
signature handed to `dspy.Predict`, and the keyword bindings the prediction
was invoked with. -/
structure ProduceTrace where
  stringMode : Bool
  sig : DSPySig
  withInstructionsCalled : Bool
  withInstructionsArg : PyVal
  attachedInstructions : PyVal
  callArgs : Kwargs
deriving DecidableEq

/-- `DSPyAdapter.produce` (`adapters.py` lines 90-109).
Pops `user_prompt`, then `string` (the mode), builds the signature via
`type_builder(output_schema, string=string)`, pops `instructions`, and then:
structured mode wraps the signature with `sig.with_instructions(instructions)`
(unconditionally, even when `instructions` is `None`) and invokes the
prediction with the remaining kwargs plus `user_prompt=template`; string
mode builds `dspy.Signature(sig, **kw)` where `kw` carries `instructions`
only when it is truthy, and invokes the prediction with `user_prompt=template`
only. -/
def DSPyAdapter.produce (enum : Finset String → List String)
    (template : String) (output_schema : Schema) (kwargs : Kwargs) (c : Nat) :
    ProduceTrace × Nat :=
  let p1 := dictPop kwargs "user_prompt" PyVal.none
  let p2 := dictPop p1.2 "string" (PyVal.bool false)
  let string := p2.1
  let sigc := DSPyAdapter.type_builder enum output_schema [("string", string)] c
  let p3 := dictPop p2.2 "instructions" PyVal.none
  let instructions := p3.1
  if PyVal.truthy string = false then
    ({ stringMode := false
       sig := sigc.1
       withInstructionsCalled := true
       withInstructionsArg := instructions
       attachedInstructions := instructions
       callArgs := p3.2 ++ [("user_prompt", PyVal.str template)] }, sigc.2)
  else
    ({ stringMode := true
       sig := sigc.1
       withInstructionsCalled := false
       withInstructionsArg := PyVal.none
       attachedInstructions :=
         if PyVal.truthy instructions then instructions else PyVal.none
       callArgs := [("user_prompt", PyVal.str template)] }, sigc.2)

/-- The model-client configuration built by `LM(...)` in
`DSPyAdapter.__init__` (`adapters.py` lines 46-62); the float `temperature`
and the opaque extra kwargs are elided as they play no role in which
configuration is ambient. -/
structure LMConfig where
  model : String
  maxTokens : Nat
  provider : Option String
deriving DecidableEq

/-- `DSPyAdapter.__init__`: `dspy.settings.configure(lm=LM(...))` overwrites
the process-wide dspy settings with the new client, whatever they were. -/
def DSPyAdapter.constructorEffect (cfg : LMConfig) (_s : Option LMConfig) :
    Option LMConfig :=
  some cfg

/-- The methods the `@runtime_checkable` protocol `AgentAdapter`
(`meta.py` lines 8-32) declares; `isinstance` requires every one of them. -/
def agentAdapterMembers : List String := ["produce", "produce_sync"]

/-- The methods `DSPyAdapter` (`adapters.py` lines 45-109) defines. -/
def DSPyAdapter.members : List String := ["__init__", "type_builder", "produce"]

/-- Modelled from the spec: the external schema-validating agent-run
framework's `Agent` class (the base of `PydanticAdapter`, not under `src/`)
exposes its run machinery (`run`, `run_sync`); the spec never attributes a
`produce_sync` method to it. -/
def pydanticAgentBaseMembers : List String := ["__init__", "run", "run_sync"]

/-- The methods visible on a `PydanticAdapter` instance: its own definitions
(`adapters.py` lines 16-42) plus those inherited from the `Agent` base. -/
def PydanticAdapter.members : List String :=
  ["type_builder", "produce"] ++ pydanticAgentBaseMembers

/-- The duck-typed runtime conformance check: `isinstance(x, AgentAdapter)`
on a `@runtime_checkable` protocol checks that every declared protocol
method is present on the instance. -/
def isinstanceAgentAdapter (members : List String) : Bool :=
  agentAdapterMembers.all (fun m => members.contains m)

/-- Modelled from the spec: the alternate calling convention of the
string-signature adapter's `produce` (absent from `src/`, hinted at only by a
commented-out test call `produce(template, output_type=CapitalSignature)`)
receives a pre-built output descriptor, which is either a signature subtype,
a plain type, a string signature, or something else entirely. -/
inductive OutputDescr where
  | sigType (fields : List FieldSpec)
  | plainType (t : PyType)
  | strSigRepr (s : String)
  | other (descr : String)
deriving DecidableEq

/-- Modelled from the spec: the assertion guarding the alternate calling
convention recognizes signature subtypes and plain types/strings. -/
def recognizedDescr : OutputDescr → Bool
  | .other _ => false
  | _ => true

/-- Outcome of the alternate-convention `produce`: either the precondition
assertion fails with a generic value error, or a prediction is built and
invoked (the one network call). -/
inductive AltOutcome where
  | valueError
  | networkInvoked (template : String) (d : OutputDescr)
deriving DecidableEq

/-- Modelled from the spec: the alternate-convention `produce` asserts the
supplied output descriptor is recognized, failing with a generic value error
before any network call is attempted; otherwise it builds the prediction and
performs the one round trip. -/
def DSPyAdapter.produceAlt (template : String) (d : OutputDescr) : AltOutcome :=
  if recognizedDescr d then AltOutcome.networkInvoked template d
  else AltOutcome.valueError

/-! ### Association-list lemmas -/

theorem findVal_eraseK_ne {α : Type} (d : List (String × α)) (k j : String)
    (h : k ≠ j) : findVal (eraseK d j) k = findVal d k := by
  induction d with
  | nil => rfl
  | cons p t ih =>
    by_cases hp : p.1 = j
    · simp [eraseK, findVal, hp, Ne.symm h, ih]
    · by_cases hk : p.1 = k
      · simp [eraseK, findVal, hp, hk, h]
      · simp [eraseK, findVal, hp, hk, ih]

theorem findVal_eraseK_self {α : Type} (d : List (String × α)) (k : String) :
    findVal (eraseK d k) k = Option.none := by
  induction d with
  | nil => rfl
  | cons p t ih =>
    by_cases hp : p.1 = k
    · simp [eraseK, hp, ih]
    · simp [eraseK, findVal, hp, ih]

theorem eraseK_comm {α : Type} (d : List (String × α)) (a b : String) :
    eraseK (eraseK d a) b = eraseK (eraseK d b) a := by
  induction d with
  | nil => rfl
  | cons p t ih =>
    by_cases ha : p.1 = a
    · by_cases hb : p.1 = b
      · have hab : a = b := ha.symm.trans hb
        subst hab
        simp [eraseK, ha, ih]
      · have hab : ¬ a = b := fun hc => hb (ha.trans hc)
        simp [eraseK, ha, hb, hab, ih]
    · by_cases hb : p.1 = b
      · have hba : ¬ b = a := fun hc => ha (hb.trans hc)
        simp [eraseK, ha, hb, hba, ih]
      · simp [eraseK, ha, hb, ih]

theorem findVal_append_of_none {α : Type} (a b : List (String × α)) (k : String)
    (h : findVal a k = Option.none) : findVal (a ++ b) k = findVal b k := by
  induction a with
  | nil => rfl
  | cons p t ih =>
    by_cases hp : p.1 = k
    · simp [findVal, hp] at h
    · simp [findVal, hp] at h ⊢
      exact ih h

theorem findVal_map_pair_none {β γ : Type} (f : String × β → γ)
    (l : List (String × β)) (k : String) (h : k ∉ l.map Prod.fst) :
    findVal (l.map (fun p => (p.1, f p))) k = Option.none := by
  induction l with
  | nil => rfl
  | cons p t ih =>
    simp only [List.map_cons, List.mem_cons, not_or] at h
    simp [findVal, Ne.symm h.1, ih h.2]

theorem lookupField_append_left (a b : List FieldSpec) (k : String)
    (x : FieldSpec) (h : lookupField a k = some x) :
    lookupField (a ++ b) k = some x := by
  induction a with
  | nil => simp [lookupField] at h
  | cons f t ih =>
    by_cases hf : f.fname = k
    · simp [lookupField, hf] at h ⊢
      exact h
    · simp [lookupField, hf] at h ⊢
      exact ih h

theorem nodup_singleton_list (l : List String) (a : String)
    (h1 : l.Nodup) (h2 : l.toFinset = {a}) : l = [a] := by
  cases l with
  | nil =>
    exfalso
    have : a ∈ ([] : List String).toFinset := by
      rw [h2]
      exact Finset.mem_singleton_self a
    simp at this
  | cons x t =>
    have hx : x = a := by
      have : x ∈ (x :: t).toFinset := by simp
      rw [h2] at this
      simpa using this
    have ht : t = [] := by
      rw [List.eq_nil_iff_forall_not_mem]
      intro y hy
      have hya : y = a := by
        have : y ∈ (x :: t).toFinset := by simp [hy]
        rw [h2] at this
        simpa using this
      have hnx : x ∉ t := (List.nodup_cons.mp h1).1
      exact hnx (hx ▸ hya ▸ hy)
    rw [hx, ht]

/-! ### Claims -/

/-- C3: calling `DSPyAdapter.type_builder` in string mode (`string=True`)
with the one-field schema `{"capital": str}` returns exactly the literal
string `user_prompt: str -> capital: str`, whatever iteration order `enum`
the Python set comprehension produces. -/
theorem c3_string_mode_literal_render (enum : Finset String → List String)
    (c : Nat) (h1 : (enum {"capital: str"}).Nodup)
    (h2 : (enum {"capital: str"}).toFinset = {"capital: str"}) :
    (DSPyAdapter.type_builder enum [("capital", pyStr)]
        [("string", PyVal.bool true)] c).1
      = DSPySig.strSig "user_prompt: str -> capital: str" := by
  have henum : enum {"capital: str"} = ["capital: str"] :=
    nodup_singleton_list _ _ h1 h2
  have hstep : (DSPyAdapter.type_builder enum [("capital", pyStr)]
      [("string", PyVal.bool true)] c).1
      = DSPySig.strSig ("user_prompt: str -> " ++
          String.intercalate ", " (enum {"capital: str"})) := by
    have hfrag : (([("capital", pyStr)] : Schema).map
        (fun p => p.1 ++ ": " ++ make_repr p.2)).toFinset
        = ({"capital: str"} : Finset String) := by decide
    simp only [DSPyAdapter.type_builder, dictPop, findVal, eraseK, PyVal.truthy]
    rw [hfrag]
    simp
  rw [hstep, henum]
  rfl

/-- Witness for C3 at the concrete set enumeration that lists the one
fragment. -/
theorem c3_string_mode_literal_render_witness :
    (DSPyAdapter.type_builder (fun _ => ["capital: str"]) [("capital", pyStr)]
        [("string", PyVal.bool true)] 0).1
      = DSPySig.strSig "user_prompt: str -> capital: str" :=
  c3_string_mode_literal_render (fun _ => ["capital: str"]) 0
    (by decide) (by decide)

/-- C4 (counterexample): `DSPyAdapter` defines no `produce_sync`, so an
instance fails the runtime-checkable `AgentAdapter` `isinstance` check,
refuting the claim that both adapters pass it. -/
theorem c4_isinstance_fails_counterexample :
    isinstanceAgentAdapter DSPyAdapter.members = false := by decide

/-- C4 (amended): both adapters expose `produce` (the capability the spec
calls the single-method contract), but neither defines `produce_sync`, so
neither instance passes an `isinstance` check against the two-method
runtime-checkable `AgentAdapter` protocol. -/
theorem c4_protocol_member_conformance :
    "produce" ∈ DSPyAdapter.members ∧ "produce" ∈ PydanticAdapter.members ∧
    "produce_sync" ∉ DSPyAdapter.members ∧
    "produce_sync" ∉ PydanticAdapter.members ∧
    isinstanceAgentAdapter DSPyAdapter.members = false ∧
    isinstanceAgentAdapter PydanticAdapter.members = false := by decide

/-- C5: when the supplied output descriptor is neither a recognized
signature type nor a plain type/string, the alternate-calling-convention
`produce` fails with the precondition value error, and no network call is
attempted (the `networkInvoked` outcome never arises). -/
theorem c5_alt_convention_precondition (template : String) (d : OutputDescr)
    (h : recognizedDescr d = false) :
    DSPyAdapter.produceAlt template d = AltOutcome.valueError := by
  simp [DSPyAdapter.produceAlt, h]

/-- Witness for C5 at a concrete unrecognized descriptor. -/
theorem c5_alt_convention_precondition_witness :
    DSPyAdapter.produceAlt "What is the capital?" (OutputDescr.other "dict")
      = AltOutcome.valueError :=
  c5_alt_convention_precondition "What is the capital?"
    (OutputDescr.other "dict") rfl

/-- C6: `dspy.settings.configure` in the constructor is a process-wide
overwrite, so after any non-empty sequence of `DSPyAdapter` constructions
the ambient model-client configuration every subsequent `produce` call reads
is exactly the one set by the most recent construction. -/
theorem c6_last_construction_wins (cfgs : List LMConfig)
    (s0 : Option LMConfig) (h : cfgs ≠ []) :
    List.foldl (fun s cfg => DSPyAdapter.constructorEffect cfg s) s0 cfgs
      = cfgs.getLast? := by
  induction cfgs generalizing s0 with
  | nil => exact absurd rfl h
  | cons a t ih =>
    cases t with
    | nil => rfl
    | cons b t2 =>
      rw [List.foldl_cons]
      rw [show DSPyAdapter.constructorEffect a s0 = some a from rfl]
      rw [ih (some a) (by simp), List.getLast?_cons_cons]

/-- Witness for C6: constructing two adapters with different model ids
leaves the second model ambient. -/
theorem c6_last_construction_wins_witness :
    List.foldl (fun s cfg => DSPyAdapter.constructorEffect cfg s)
      Option.none
      [LMConfig.mk "groq/qwen/qwen3-32b" 4000 Option.none,
       LMConfig.mk "groq/llama3-70b" 4000 Option.none]
      = some (LMConfig.mk "groq/llama3-70b" 4000 Option.none) := by
  rw [c6_last_construction_wins _ _ (by simp)]
  rfl

/-- C8: calling `type_builder` twice with the same `output_schema` allocates
two distinct class objects (`create_model` is not cached or interned) that
declare identical field lists, for both adapters (structured mode for
`DSPyAdapter`). -/
theorem c8_type_builder_fresh_types (output_schema : Schema)
    (enum : Finset String → List String) (c : Nat) :
    ((PydanticAdapter.type_builder output_schema c).1.modelId ≠
      (PydanticAdapter.type_builder output_schema
        (PydanticAdapter.type_builder output_schema c).2).1.modelId) ∧
    ((PydanticAdapter.type_builder output_schema c).1.fields =
      (PydanticAdapter.type_builder output_schema
        (PydanticAdapter.type_builder output_schema c).2).1.fields) ∧
    (DSPySig.typedId (DSPyAdapter.type_builder enum output_schema [] c).1 ≠
      DSPySig.typedId (DSPyAdapter.type_builder enum output_schema []
        (DSPyAdapter.type_builder enum output_schema [] c).2).1) ∧
    (DSPySig.typedFields (DSPyAdapter.type_builder enum output_schema [] c).1 =
      DSPySig.typedFields (DSPyAdapter.type_builder enum output_schema []
        (DSPyAdapter.type_builder enum output_schema [] c).2).1) := by
  refine ⟨?_, rfl, ?_, rfl⟩
  · simp [PydanticAdapter.type_builder]
  · simp [DSPyAdapter.type_builder, dictPop, findVal, eraseK, PyVal.truthy,
      DSPySig.typedId]

/-- Characterization of `DSPyAdapter.produce` in structured mode (the popped
`string` kwarg is falsy): the signature is built from the schema, the popped
`instructions` value (defaulting to `None`) is passed to
`with_instructions`, and the prediction is invoked with the remaining kwargs
plus `user_prompt=template`. -/
theorem produce_structured_trace (enum : Finset String → List String)
    (template : String) (output_schema : Schema) (kwargs : Kwargs) (c : Nat)
    (h : PyVal.truthy ((findVal kwargs "string").getD (PyVal.bool false))
      = false) :
    (DSPyAdapter.produce enum template output_schema kwargs c).1
      = { stringMode := false
          sig := (DSPyAdapter.type_builder enum output_schema
            [("string", (findVal kwargs "string").getD (PyVal.bool false))] c).1
          withInstructionsCalled := true
          withInstructionsArg := (findVal kwargs "instructions").getD PyVal.none
          attachedInstructions := (findVal kwargs "instructions").getD PyVal.none
          callArgs := eraseK (eraseK (eraseK kwargs "user_prompt") "string")
              "instructions" ++ [("user_prompt", PyVal.str template)] } := by
  have hs : findVal (eraseK kwargs "user_prompt") "string"
      = findVal kwargs "string" :=
    findVal_eraseK_ne kwargs "string" "user_prompt" (by decide)
  have hi : findVal (eraseK (eraseK kwargs "user_prompt") "string")
      "instructions" = findVal kwargs "instructions" := by
    rw [findVal_eraseK_ne _ "instructions" "string" (by decide),
      findVal_eraseK_ne _ "instructions" "user_prompt" (by decide)]
  simp only [DSPyAdapter.produce, dictPop, hs, hi, h]
  simp

/-- Characterization of `DSPyAdapter.produce` in string mode (the popped
`string` kwarg is truthy): the string signature is built from the schema,
`instructions` is attached only when truthy, and the prediction is invoked
with `user_prompt=template` only. -/
theorem produce_string_trace (enum : Finset String → List String)
    (template : String) (output_schema : Schema) (kwargs : Kwargs) (c : Nat)
    (h : PyVal.truthy ((findVal kwargs "string").getD (PyVal.bool false))
      = true) :
    (DSPyAdapter.produce enum template output_schema kwargs c).1
      = { stringMode := true
          sig := (DSPyAdapter.type_builder enum output_schema
            [("string", (findVal kwargs "string").getD (PyVal.bool false))] c).1
          withInstructionsCalled := false
          withInstructionsArg := PyVal.none
          attachedInstructions :=
            if PyVal.truthy ((findVal kwargs "instructions").getD PyVal.none)
            then (findVal kwargs "instructions").getD PyVal.none
            else PyVal.none
          callArgs := [("user_prompt", PyVal.str template)] } := by
  have hs : findVal (eraseK kwargs "user_prompt") "string"
      = findVal kwargs "string" :=
    findVal_eraseK_ne kwargs "string" "user_prompt" (by decide)
  have hi : findVal (eraseK (eraseK kwargs "user_prompt") "string")
      "instructions" = findVal kwargs "instructions" := by
    rw [findVal_eraseK_ne _ "instructions" "string" (by decide),
      findVal_eraseK_ne _ "instructions" "user_prompt" (by decide)]
  simp only [DSPyAdapter.produce, dictPop, hs, hi, h]
  simp

/-- C2 (amended): every `DSPyAdapter.produce` call removes `user_prompt`,
`string` and `instructions` from the kwargs before forwarding, and binds
`user_prompt` to the template; in structured mode the prediction also
receives all remaining kwargs, while in string mode it receives only
`user_prompt=template` (remaining kwargs are dropped). -/
theorem c2_produce_kwarg_filtering (enum : Finset String → List String)
    (template : String) (output_schema : Schema) (kwargs : Kwargs) (c : Nat) :
    (findVal (DSPyAdapter.produce enum template output_schema kwargs
        c).1.callArgs "user_prompt" = some (PyVal.str template)) ∧
    (findVal (DSPyAdapter.produce enum template output_schema kwargs
        c).1.callArgs "string" = Option.none) ∧
    (findVal (DSPyAdapter.produce enum template output_schema kwargs
        c).1.callArgs "instructions" = Option.none) ∧
    ((DSPyAdapter.produce enum template output_schema kwargs c).1.stringMode
        = false →
      (DSPyAdapter.produce enum template output_schema kwargs c).1.callArgs
        = eraseK (eraseK (eraseK kwargs "user_prompt") "string")
            "instructions" ++ [("user_prompt", PyVal.str template)]) ∧
    ((DSPyAdapter.produce enum template output_schema kwargs c).1.stringMode
        = true →
      (DSPyAdapter.produce enum template output_schema kwargs c).1.callArgs
        = [("user_prompt", PyVal.str template)]) := by
  by_cases ht : PyVal.truthy ((findVal kwargs "string").getD
      (PyVal.bool false)) = true
  · rw [produce_string_trace enum template output_schema kwargs c ht]
    refine ⟨by simp [findVal], by simp [findVal], by simp [findVal],
      by intro hc; simp at hc, fun _ => rfl⟩
  · have ht1 : PyVal.truthy ((findVal kwargs "string").getD
        (PyVal.bool false)) = false := by
      revert ht
      cases PyVal.truthy ((findVal kwargs "string").getD (PyVal.bool false)) <;>
        simp
    rw [produce_structured_trace enum template output_schema kwargs c ht1]
    have hup : findVal (eraseK (eraseK (eraseK kwargs "user_prompt") "string")
        "instructions") "user_prompt" = Option.none := by
      rw [findVal_eraseK_ne _ "user_prompt" "instructions" (by decide),
        findVal_eraseK_ne _ "user_prompt" "string" (by decide),
        findVal_eraseK_self]
    have hst : findVal (eraseK (eraseK (eraseK kwargs "user_prompt") "string")
        "instructions") "string" = Option.none := by
      rw [findVal_eraseK_ne _ "string" "instructions" (by decide),
        findVal_eraseK_self]
    have hin : findVal (eraseK (eraseK (eraseK kwargs "user_prompt") "string")
        "instructions") "instructions" = Option.none := by
      rw [findVal_eraseK_self]
    refine ⟨?_, ?_, ?_, fun _ => rfl, by intro hc; simp at hc⟩
    · rw [findVal_append_of_none _ _ _ hup]
      simp [findVal]
    · rw [findVal_append_of_none _ _ _ hst]
      simp [findVal]
    · rw [findVal_append_of_none _ _ _ hin]
      simp [findVal]

/-- Witness for C2's amended statement at a concrete structured-mode call. -/
theorem c2_produce_kwarg_filtering_witness :
    findVal ((DSPyAdapter.produce (fun _ => []) "ask" [("capital", pyStr)]
        [("extra", PyVal.str "v")] 0).1.callArgs) "user_prompt"
      = some (PyVal.str "ask") :=
  (c2_produce_kwarg_filtering (fun _ => []) "ask" [("capital", pyStr)]
    [("extra", PyVal.str "v")] 0).1

/-- C2 (counterexample): in string mode a remaining kwarg (`extra`) is NOT
forwarded to the prediction — the invocation receives only
`user_prompt=template`, refuting the claim for "either mode". -/
theorem c2_string_mode_drops_kwargs_counterexample :
    (DSPyAdapter.produce (fun _ => []) "tpl" [("capital", pyStr)]
        [("string", PyVal.bool true), ("extra", PyVal.str "v")] 0).1.callArgs
      = [("user_prompt", PyVal.str "tpl")] ∧
    "extra" ∉ ((DSPyAdapter.produce (fun _ => []) "tpl" [("capital", pyStr)]
        [("string", PyVal.bool true), ("extra", PyVal.str "v")]
        0).1.callArgs).map Prod.fst := by
  constructor
  · decide
  · decide

/-- C7: two `produce` calls whose kwargs differ only in the
presence/value of the `instructions` key run in the same mode, build equal
signatures (same input and output field sets) and invoke the prediction
with the same bindings: `instructions` affects only what is attached to the
signature. -/
theorem c7_instructions_only_affects_instructions
    (enum : Finset String → List String) (template : String)
    (output_schema : Schema) (k1 k2 : Kwargs) (c : Nat)
    (h : eraseK k1 "instructions" = eraseK k2 "instructions") :
    ((DSPyAdapter.produce enum template output_schema k1 c).1.stringMode
      = (DSPyAdapter.produce enum template output_schema k2 c).1.stringMode) ∧
    ((DSPyAdapter.produce enum template output_schema k1 c).1.sig
      = (DSPyAdapter.produce enum template output_schema k2 c).1.sig) ∧
    ((DSPyAdapter.produce enum template output_schema k1 c).1.callArgs
      = (DSPyAdapter.produce enum template output_schema k2 c).1.callArgs) := by
  have hsv : findVal k1 "string" = findVal k2 "string" := by
    rw [← findVal_eraseK_ne k1 "string" "instructions" (by decide), h,
      findVal_eraseK_ne k2 "string" "instructions" (by decide)]
  have hrest : eraseK (eraseK (eraseK k1 "user_prompt") "string")
      "instructions"
      = eraseK (eraseK (eraseK k2 "user_prompt") "string") "instructions" := by
    rw [eraseK_comm (eraseK k1 "user_prompt") "string" "instructions",
      eraseK_comm k1 "user_prompt" "instructions", h,
      ← eraseK_comm k2 "user_prompt" "instructions",
      ← eraseK_comm (eraseK k2 "user_prompt") "string" "instructions"]
  by_cases ht : PyVal.truthy ((findVal k1 "string").getD (PyVal.bool false))
      = true
  · rw [produce_string_trace enum template output_schema k1 c ht,
      produce_string_trace enum template output_schema k2 c (hsv ▸ ht), hsv]
    exact ⟨rfl, rfl, rfl⟩
  · have ht1 : PyVal.truthy ((findVal k1 "string").getD (PyVal.bool false))
        = false := by
      revert ht
      cases PyVal.truthy ((findVal k1 "string").getD (PyVal.bool false)) <;>
        simp
    rw [produce_structured_trace enum template output_schema k1 c ht1,
      produce_structured_trace enum template output_schema k2 c (hsv ▸ ht1),
      hsv, hrest]
    exact ⟨rfl, rfl, rfl⟩

/-- Witness for C7: a call with `instructions` supplied against the same
call without it. -/
theorem c7_instructions_only_affects_instructions_witness :
    ((DSPyAdapter.produce (fun _ => []) "ask" [("capital", pyStr)]
        [("instructions", PyVal.str "rev")] 0).1.stringMode
      = (DSPyAdapter.produce (fun _ => []) "ask" [("capital", pyStr)]
        [] 0).1.stringMode) ∧
    ((DSPyAdapter.produce (fun _ => []) "ask" [("capital", pyStr)]
        [("instructions", PyVal.str "rev")] 0).1.sig
      = (DSPyAdapter.produce (fun _ => []) "ask" [("capital", pyStr)]
        [] 0).1.sig) ∧
    ((DSPyAdapter.produce (fun _ => []) "ask" [("capital", pyStr)]
        [("instructions", PyVal.str "rev")] 0).1.callArgs
      = (DSPyAdapter.produce (fun _ => []) "ask" [("capital", pyStr)]
        [] 0).1.callArgs) :=
  c7_instructions_only_affects_instructions (fun _ => []) "ask"
    [("capital", pyStr)] [("instructions", PyVal.str "rev")] [] 0 (by decide)

/-- C9: in structured mode an `instructions`-free call still invokes
`sig.with_instructions`, with the value `None`, rather than leaving the
signature unmodified. -/
theorem c9_with_instructions_unconditional (enum : Finset String → List String)
    (template : String) (output_schema : Schema) (kwargs : Kwargs) (c : Nat)
    (h1 : PyVal.truthy ((findVal kwargs "string").getD (PyVal.bool false))
      = false)
    (h2 : findVal kwargs "instructions" = Option.none) :
    ((DSPyAdapter.produce enum template output_schema kwargs c).1.stringMode
      = false) ∧
    ((DSPyAdapter.produce enum template output_schema kwargs
        c).1.withInstructionsCalled = true) ∧
    ((DSPyAdapter.produce enum template output_schema kwargs
        c).1.withInstructionsArg = PyVal.none) := by
  rw [produce_structured_trace enum template output_schema kwargs c h1]
  simp [h2]

/-- Witness for C9 at a concrete call with no `instructions` kwarg. -/
theorem c9_with_instructions_unconditional_witness :
    ((DSPyAdapter.produce (fun _ => []) "ask" [("capital", pyStr)]
        [("extra", PyVal.int 2)] 0).1.stringMode = false) ∧
    ((DSPyAdapter.produce (fun _ => []) "ask" [("capital", pyStr)]
        [("extra", PyVal.int 2)] 0).1.withInstructionsCalled = true) ∧
    ((DSPyAdapter.produce (fun _ => []) "ask" [("capital", pyStr)]
        [("extra", PyVal.int 2)] 0).1.withInstructionsArg = PyVal.none) :=
  c9_with_instructions_unconditional (fun _ => []) "ask" [("capital", pyStr)]
    [("extra", PyVal.int 2)] 0 (by decide) (by decide)

/-- `dict.update` with a key absent from the dict appends the new binding. -/
theorem dictUpdate_of_absent {α : Type} (d : List (String × α)) (k : String)
    (v : α) (h : findVal d k = Option.none) :
    dictUpdate d k v = d ++ [(k, v)] := by
  simp [dictUpdate, h]

/-- On the output-field list built from a schema with distinct keys, looking
a schema field up by name finds exactly its required, defaultless output
field. -/
theorem lookupField_map_out (schema : Schema)
    (h : (schema.map Prod.fst).Nodup) :
    ∀ pr ∈ schema,
      lookupField (schema.map (fun p => FieldSpec.mk p.1 p.2 false true false))
        pr.1 = some (FieldSpec.mk pr.1 pr.2 false true false) := by
  induction schema with
  | nil => intro pr hpr; simp at hpr
  | cons q t ih =>
    intro pr hpr
    rw [List.map_cons, List.nodup_cons] at h
    rcases List.mem_cons.mp hpr with hq | htl
    · rw [hq]
      simp [lookupField]
    · have hne : ¬ q.1 = pr.1 := by
        intro hc
        exact h.1 (hc ▸ List.mem_map_of_mem Prod.fst htl)
      simp only [List.map_cons, lookupField, hne, if_false]
      exact ih h.2 pr htl

/-- Structured-mode `DSPyAdapter.type_builder` on a schema without a
`user_prompt` key: the created signature declares the schema's output
fields in order followed by the appended `user_prompt` input field. -/
theorem dspy_type_builder_structured (enum : Finset String → List String)
    (schema : Schema) (c : Nat)
    (h : "user_prompt" ∉ schema.map Prod.fst) :
    (DSPyAdapter.type_builder enum schema [] c).1
      = DSPySig.typed (TypedSig.mk c "_OutputSignature"
          (schema.map (fun p => FieldSpec.mk p.1 p.2 false true false)
            ++ [FieldSpec.mk "user_prompt" pyStr true true false])) := by
  have hfd : findVal (schema.map (fun p => (p.1, (p.2, false)))) "user_prompt"
      = Option.none :=
    findVal_map_pair_none (fun p => (p.2, false)) schema "user_prompt" h
  simp only [DSPyAdapter.type_builder, dictPop, findVal, eraseK,
    PyVal.truthy, Option.getD]
  rw [dictUpdate_of_absent _ _ _ hfd]
  simp [List.map_map, Function.comp]

/-- C1 (amended): for every non-empty schema with distinct keys none of
which is `user_prompt`, both adapters' `type_builder` declare output fields
that are exactly the schema's (field, type) pairs, each required with no
default, and each reachable by name. -/
theorem c1_type_builder_output_fields (schema : Schema)
    (enum : Finset String → List String) (c₁ c₂ : Nat)
    (h0 : schema ≠ []) (h1 : (schema.map Prod.fst).Nodup)
    (h2 : "user_prompt" ∉ schema.map Prod.fst) :
    ((PydanticAdapter.type_builder schema c₁).1.fields.map
        (fun f => (f.fname, f.ftype)) = schema) ∧
    (∀ f ∈ (PydanticAdapter.type_builder schema c₁).1.fields,
        f.required = true ∧ f.hasDefault = false) ∧
    (∀ pr ∈ schema,
        lookupField (PydanticAdapter.type_builder schema c₁).1.fields
          pr.1 = some (FieldSpec.mk pr.1 pr.2 false true false)) ∧
    (((DSPyAdapter.type_builder enum schema [] c₂).1.typedFields.filter
        (fun f => !f.isInput)).map (fun f => (f.fname, f.ftype)) = schema) ∧
    (∀ f ∈ (DSPyAdapter.type_builder enum schema [] c₂).1.typedFields,
        f.required = true ∧ f.hasDefault = false) ∧
    (∀ pr ∈ schema,
        lookupField (DSPyAdapter.type_builder enum schema [] c₂).1.typedFields
          pr.1 = some (FieldSpec.mk pr.1 pr.2 false true false)) := by
  rw [dspy_type_builder_structured enum schema c₂ h2]
  refine ⟨?_, ?_, ?_, ?_, ?_, ?_⟩
  · simp only [PydanticAdapter.type_builder, List.map_map]
    exact List.map_id'' (fun p => rfl) schema
  · intro f hf
    simp only [PydanticAdapter.type_builder, List.mem_map] at hf
    obtain ⟨pr, _, hpr⟩ := hf
    rw [← hpr]
    exact ⟨rfl, rfl⟩
  · exact lookupField_map_out schema h1
  · have hflt : (schema.map
        (fun p => FieldSpec.mk p.1 p.2 false true false)).filter
        (fun f => !f.isInput)
        = schema.map (fun p => FieldSpec.mk p.1 p.2 false true false) := by
      rw [List.filter_eq_self]
      intro f hf
      obtain ⟨pr, _, hpr⟩ := List.mem_map.mp hf
      rw [← hpr]
      rfl
    simp only [DSPySig.typedFields, List.filter_append, hflt]
    simp only [List.map_append, List.map_map]
    have hsingle : (([FieldSpec.mk "user_prompt" pyStr true true false]).filter
        (fun f => !f.isInput)) = [] := rfl
    rw [hsingle]
    simp only [List.map_nil, List.append_nil]
    exact List.map_id'' (fun p => rfl) schema
  · intro f hf
    simp only [DSPySig.typedFields, List.mem_append, List.mem_map,
      List.mem_singleton] at hf
    rcases hf with ⟨pr, _, hpr⟩ | hup
    · rw [← hpr]
      exact ⟨rfl, rfl⟩
    · rw [hup]
      exact ⟨rfl, rfl⟩
  · intro pr hpr
    simp only [DSPySig.typedFields]
    exact lookupField_append_left _ _ _ _ (lookupField_map_out schema h1 pr hpr)

/-- Witness for C1's amended statement at the one-field schema
`{"capital": str}`. -/
theorem c1_type_builder_output_fields_witness :
    (PydanticAdapter.type_builder [("capital", pyStr)] 0).1.fields.map
        (fun f => (f.fname, f.ftype)) = [("capital", pyStr)] :=
  (c1_type_builder_output_fields [("capital", pyStr)] (fun _ => []) 0 0
    (by decide) (by decide) (by decide)).1

/-- C1 (counterexample): for the schema `{"user_prompt": int}`,
`DSPyAdapter.type_builder`'s `dict.update` overwrites the schema entry with
the `user_prompt: str` input field, so the declared output fields are not
the schema's pairs — lookup by name finds an input field of type `str`
instead. -/
theorem c1_user_prompt_key_counterexample :
    (((DSPyAdapter.type_builder (fun _ => []) [("user_prompt", pyInt)] []
        0).1.typedFields.filter (fun f => !f.isInput)).map
        (fun f => (f.fname, f.ftype)) ≠ [("user_prompt", pyInt)]) ∧
    (lookupField (DSPyAdapter.type_builder (fun _ => []) [("user_prompt", pyInt)]
        [] 0).1.typedFields "user_prompt"
      = some (FieldSpec.mk "user_prompt" pyStr true true false)) := by
  constructor
  · decide
  · decide

/-- C10: string-mode `type_builder` collects the rendered fragments into an
unordered Python set before joining, so the rendered signature is identical
for a schema and its reversal (for any set iteration order), although the
two schemas declare their keys in different orders — the output-field order
in the rendered string is therefore not a function of the schema's
insertion order. -/
theorem c10_string_mode_order_loss (enum : Finset String → List String)
    (schema : Schema) (c₁ c₂ : Nat)
    (h1 : 2 ≤ schema.length) (h2 : (schema.map Prod.fst).Nodup) :
    ((DSPyAdapter.type_builder enum schema [("string", PyVal.bool true)] c₁).1
      = (DSPyAdapter.type_builder enum schema.reverse
          [("string", PyVal.bool true)] c₂).1) ∧
    schema.map Prod.fst ≠ schema.reverse.map Prod.fst := by
  constructor
  · have hfr : (schema.reverse.map
        (fun p => p.1 ++ ": " ++ make_repr p.2)).toFinset
        = (schema.map (fun p => p.1 ++ ": " ++ make_repr p.2)).toFinset := by
      rw [List.map_reverse, List.toFinset_reverse]
    simp [DSPyAdapter.type_builder, dictPop, findVal, eraseK, PyVal.truthy, hfr]
  · intro hc
    rw [List.map_reverse] at hc
    match schema, h1 with
    | p :: q :: rest, _ =>
      have hh : (List.map Prod.fst (p :: q :: rest)).head?
          = ((List.map Prod.fst (p :: q :: rest)).reverse).head? := by
        rw [← hc]
      rw [List.head?_reverse, List.map_cons, List.map_cons,
        List.getLast?_cons_cons] at hh
      have hmem : p.1 ∈ List.map Prod.fst (q :: rest) := by
        apply List.mem_of_mem_getLast?
        rw [List.map_cons, ← hh]
        rfl
      have hnd : p.1 ∉ List.map Prod.fst (q :: rest) := by
        rw [List.map_cons] at h2
        exact (List.nodup_cons.mp h2).1
      exact hnd hmem

/-- Witness for C10 at the two-field schema
`{"capital": str, "country": str}`. -/
theorem c10_string_mode_order_loss_witness :
    ((DSPyAdapter.type_builder (fun _ => [])
        [("capital", pyStr), ("country", pyStr)]
        [("string", PyVal.bool true)] 0).1
      = (DSPyAdapter.type_builder (fun _ => [])
          ([("capital", pyStr), ("country", pyStr)] : Schema).reverse
          [("string", PyVal.bool true)] 1).1) ∧
    ([("capital", pyStr), ("country", pyStr)] : Schema).map Prod.fst
      ≠ ([("capital", pyStr), ("country", pyStr)] : Schema).reverse.map
          Prod.fst :=
  c10_string_mode_order_loss (fun _ => [])
    [("capital", pyStr), ("country", pyStr)] 0 1 (by decide) (by decide)
